import Mathlib

/-!
Verification of the ZeroChat AI-behavior core (memory subsystem, chat event
dispatcher, proactive scheduler) against its natural-language specification.

The Python sources are shallowly embedded:
* `server/services/memory_service.py` — per-role memory state becomes the
  `MemState` structure; the sqlite meta table and short-term table become
  fields; each service function becomes a pure state transformer.  Wall-clock
  timestamps (`datetime.now()`) become explicit `Int` parameters measured in
  seconds; calendar dates in the menstruation logic become `Int` day numbers.
* AI HTTP calls (`call_ai_direct` / `generate_with_role`) are oracles: their
  outcome is passed in as a parameter.  `none` models a raised exception,
  `some r` a returned `{success, content, error}` dict.  Python truthiness of
  `result["content"]` is `contentTruthy`.
* `random` draws (interval minutes, cycle jitter) are explicit parameters.
Float temperatures are carried as an opaque `Int` code: the code never does
arithmetic on them, only passes them through.
-/

/-- One row of the `short_term` sqlite table
(`memory_service.py`, `_init_db`): role, content, timestamp. -/
structure Entry where
  role : String
  content : String
  timestamp : Int
deriving Repr, DecidableEq

/-- Per-role durable memory state: the `memory_meta` keys plus the
`short_term` table of `memory.sqlite` (`memory_service.py`). -/
structure MemState where
  coreMemory : String
  shortTerm : List Entry
  messageCountSinceSummary : Nat
  lastSummarizedAt : Option Int
  updatedAt : Option Int
  lastContextBlockStart : Int
deriving Repr, DecidableEq

/-- `_get_memory_length()` in `memory_service.py`: the shared window /
summarization threshold constant, 60. -/
def memoryLength : Nat := 60

/-- Result dict of `call_ai_direct` (`ai_service.py`):
`{"success": bool, "content": str|None, "error": str|None}`. -/
structure AIResult where
  success : Bool
  content : Option String
  error : Option String
deriving Repr, DecidableEq

/-- Python truthiness of `result["content"]`: `None` and `""` are falsy. -/
def contentTruthy : Option String → Bool
  | none => false
  | some s => s ≠ ""

/-- `append_short_term(role_id, role, content)` (`memory_service.py` lines
264-288): inserts one row, increments `message_count_since_summary`,
sets `updated_at` to now. -/
def append_short_term (st : MemState) (role content : String) (now : Int) : MemState :=
  { st with
    shortTerm := st.shortTerm ++ [⟨role, content, now⟩]
    messageCountSinceSummary := st.messageCountSinceSummary + 1
    updatedAt := some now }

/-- `update_core_memory(role_id, core_memory)` (`memory_service.py` lines
386-393): overwrites core memory, sets `last_summarized_at` and `updated_at`
to now, resets the counter to 0.  (`_normalize_core_memory` is the identity
on strings.) -/
def update_core_memory (st : MemState) (coreMemory : String) (now : Int) : MemState :=
  { st with
    coreMemory := coreMemory
    lastSummarizedAt := some now
    messageCountSinceSummary := 0
    updatedAt := some now }

/-- `should_summarize(role_id)` (`memory_service.py` lines 415-430):
`message_count_since_summary >= _get_memory_length()`. -/
def should_summarize (st : MemState) : Bool :=
  st.messageCountSinceSummary ≥ memoryLength

/-- `should_generate_sequential_memory(role_id)` (`memory_service.py` lines
395-413): true when `updated_at` is absent, else when
`(now - updated_at).total_seconds() >= 1200`. -/
def should_generate_sequential_memory (st : MemState) (now : Int) : Bool :=
  match st.updatedAt with
  | none => true
  | some t => now - t ≥ 1200

/-- An entry as returned by `load_memory` (`memory_service.py` lines 207-237):
`row[0] or "assistant"` replaces a falsy role. -/
def loadEntry (e : Entry) : Entry :=
  { e with role := if e.role = "" then "assistant" else e.role }

/-- The dict returned by `load_memory(role_id)`. -/
structure LoadedMemory where
  coreMemory : String
  shortTerm : List Entry
  lastSummarizedAt : Option Int
  messageCountSinceSummary : Nat
deriving Repr, DecidableEq

/-- `load_memory(role_id)` (`memory_service.py` lines 207-237): reads the meta
keys and all short-term rows ordered by insertion id. -/
def load_memory (st : MemState) : LoadedMemory :=
  { coreMemory := st.coreMemory
    shortTerm := st.shortTerm.map loadEntry
    lastSummarizedAt := st.lastSummarizedAt
    messageCountSinceSummary := st.messageCountSinceSummary }

/-- `clear_short_term(role_id)` (`memory_service.py` lines 532-536). -/
def clear_short_term (st : MemState) (now : Int) : MemState :=
  { st with shortTerm := [], updatedAt := some now }

/-- A role profile as read from `profile.json` (`load_role` in
`ai_behavior.py` / `routers/roles.py`).  Only the fields the modeled code
paths consult.  `aiTemperature` carries the float temperature as an opaque
integer code (the code only passes temperatures through, never computes
with them); the `0.1` default of the summarization calls is the code `1`. -/
structure RoleData where
  id : Option String
  name : String
  systemPrompt : String
  persona : String
  aiModel : Option String
  aiApiUrl : Option String
  aiApiKey : Option String
  aiTemperature : Option Int
deriving Repr, DecidableEq

/-- The arguments handed to `call_ai_direct` by a summarization call:
a two-message prompt (system + user) plus the resolved credentials. -/
structure AICall where
  systemText : String
  userText : String
  model : Option String
  apiUrl : Option String
  apiKey : Option String
  temperature : Int
deriving Repr, DecidableEq

/-- Python `short_term[-n:]`: the last `n` elements. -/
def lastN (n : Nat) (l : List Entry) : List Entry :=
  l.drop (l.length - n)

/-- The `"\n".join(f"{m['role']}：{m['content']}" ...)` conversation text over
the last `_get_memory_length()` entries of `load_memory(role_id)["short_term"]`
(`memory_service.py` lines 498-501 and 304-307). -/
def recentConversation (st : MemState) : String :=
  String.intercalate "\n"
    ((lastN memoryLength (load_memory st).shortTerm).map fun m => m.role ++ "：" ++ m.content)

/-- Python `str.strip()`: drop leading and trailing whitespace.  Defined over
the character list so that concrete runs reduce inside kernel-checked proofs
(`String.trim` is equivalent but does not evaluate there). -/
def strStrip (s : String) : String :=
  ⟨((s.data.dropWhile Char.isWhitespace).reverse.dropWhile Char.isWhitespace).reverse⟩

/-- Python `str.lower()` on the ASCII range (the only case the code compares:
the literal `"none"`). -/
def strLower (s : String) : String :=
  ⟨s.data.map Char.toLower⟩

/-- `trigger_chat_summary(worker_id, role_id)` (`memory_service.py` lines
290-332).  `worker` is the result of `load_role(worker_id)`; `none` makes the
prompt-building `try` block raise (`None.get`), returning `None`.  `ai` is the
`call_ai_direct` outcome (`none` = raised).  On success with truthy content
the function appends a synthetic user/assistant pair and returns the text. -/
def trigger_chat_summary (worker : Option RoleData) (st : MemState)
    (ai : Option AIResult) (now : Int) : Option String × MemState :=
  match worker with
  | none => (none, st)
  | some _ =>
    match ai with
    | none => (none, st)
    | some r =>
      if r.success && contentTruthy r.content then
        let newMemory := strStrip (r.content.getD "")
        (some newMemory,
          append_short_term
            (append_short_term st "user" "system:触发记忆总结" now)
            "assistant" ("记忆总结结果：" ++ newMemory) now)
      else (none, st)

/-- One served context message: `{"role": row[0] or "assistant",
"content": row[1]}` (`memory_service.py` lines 374-377). -/
structure CtxMsg where
  role : String
  content : String
deriving Repr, DecidableEq

def ctxOfEntry (e : Entry) : CtxMsg :=
  ⟨if e.role = "" then "assistant" else e.role, e.content⟩

/-- `get_context_messages(role_id, limit)` (`memory_service.py` lines
334-377).  Computes `block_start = ((total - 1) // limit) * limit`; on a block
transition it persists the new block start and runs `trigger_chat_summary`
(worker `"1000000000002"`, outcome oracles `worker`/`ai`), then serves
`LIMIT limit OFFSET block_start` over the rows as they stand afterwards.
A non-positive Python `limit` is the `limit = 0` case here. -/
def get_context_messages (st : MemState) (limit : Nat) (worker : Option RoleData)
    (ai : Option AIResult) (now : Int) : List CtxMsg × MemState :=
  if limit = 0 then ([], st)
  else
    let total := st.shortTerm.length
    if total = 0 then ([], st)
    else
      let blockStart := ((total - 1) / limit) * limit
      if st.lastContextBlockStart = (blockStart : Int) then
        (((st.shortTerm.drop blockStart).take limit).map ctxOfEntry, st)
      else
        let st1 := { st with lastContextBlockStart := (blockStart : Int) }
        let st2 := (trigger_chat_summary worker st1 ai now).2
        (((st2.shortTerm.drop blockStart).take limit).map ctxOfEntry, st2)

/-- `sequential_memory_generation(role_id, worker_id, now_content)`
(`memory_service.py` lines 432-474).  Gate closed returns `"noneed"`;
a worker lookup failure or AI failure/exception returns `None`; a successful
reply equal to `"none"` (case-insensitive, stripped) returns `"noneed"`;
otherwise the narrative is appended as a synthetic exchange pair. -/
def sequential_memory_generation (st : MemState) (worker : Option RoleData)
    (ai : Option AIResult) (nowContent : String) (now : Int) : Option String × MemState :=
  if ¬ should_generate_sequential_memory st now then (some "noneed", st)
  else
    match worker with
    | none => (none, st)
    | some _ =>
      match ai with
      | none => (none, st)
      | some r =>
        if r.success && contentTruthy r.content then
          if strLower (strStrip (r.content.getD "")) = "none" then (some "noneed", st)
          else
            let newMemory := strStrip (r.content.getD "")
            (some newMemory,
              append_short_term
                (append_short_term st "user" "system:触发衔接记忆生成" now)
                "assistant" ("衔接记忆内容：" ++ newMemory) now)
        else (none, st)

/-- The user-prompt f-string of `trigger_memory_summary`
(`memory_service.py` lines 503-508). -/
def summaryPrompt (currentCore conversation : String) : String :=
  "\n    当前已有的核心记忆：\n    " ++ (if currentCore = "" then "（暂无）" else currentCore) ++
    "\n    最近对话：\n    " ++ conversation ++ "\n    "

/-- `trigger_memory_summary(role_id, role_data)` (`memory_service.py` lines
476-530).  `mem` is the memory store of `role_data.get("id", role_id)` — the
gate, the load and `update_core_memory` all address that same store.
`workerLookup` is `load_role(role_id)` from line 510, which REBINDS
`role_data`: the system prompt and credentials of the AI call come from it,
not from the `role_data` argument.  The third output records the
`call_ai_direct` arguments (`none` when no call was made). -/
def trigger_memory_summary (roleId : String) (roleData : RoleData) (mem : MemState)
    (workerLookup : Option RoleData) (ai : Option AIResult) (now : Int) :
    Option String × MemState × Option AICall :=
  if ¬ should_summarize mem then (some "noneed", mem, none)
  else
    let currentCore := (load_memory mem).coreMemory
    let conv := recentConversation mem
    match workerLookup with
    | none => (none, mem, none)
    | some caller =>
      let call : AICall :=
        { systemText := caller.systemPrompt
          userText := summaryPrompt currentCore conv
          model := caller.aiModel
          apiUrl := caller.aiApiUrl
          apiKey := caller.aiApiKey
          temperature := caller.aiTemperature.getD 1 }
      match ai with
      | none => (none, mem, some call)
      | some r =>
        if r.success && contentTruthy r.content then
          let newCore := strStrip (r.content.getD "")
          (some newCore, update_core_memory mem newCore now, some call)
        else (none, mem, some call)

/-- Result dict of `generate_with_role` (`ai_service.py` lines 164-219):
`{"success", "content", "user_content", "error"}`.  `userContent` is the
`"content"` field of `result.get("user_content", ...)` as consumed by
`handle_chat` line 218 (the time-stamped user message on success). -/
structure GenResult where
  success : Bool
  content : Option String
  userContent : Option String
  error : Option String
deriving Repr, DecidableEq

/-- `AIResponse` (`ai_behavior.py` lines 37-42); the `metadata` dict is not
needed by any claim and is omitted. -/
structure AIResponse where
  success : Bool
  action : Option String
  content : Option String
  error : Option String
deriving Repr, DecidableEq

/-- The outcomes of the external lookups and AI calls a single `handle_chat`
run can perform, in program order (`ai_behavior.py` lines 147-242):
the block-transition chat summary inside `get_context_messages`
(worker `"1000000000002"`), the bridging-memory generation
(worker `"1000000000003"`), the main `generate_with_role` call, the
core-memory summary (`trigger_memory_summary("1000000000000", role)`), and
the emotion classification (`some e` = an emoji folder for emotion `e` was
selected, `none` = skipped/failed/no match). -/
structure ChatOracles where
  ctxWorker : Option RoleData
  ctxAI : Option AIResult
  seqWorker : Option RoleData
  seqAI : Option AIResult
  gen : GenResult
  sumWorker : Option RoleData
  sumAI : Option AIResult
  emotion : Option String
deriving Repr, DecidableEq

/-- `handle_chat(role, event)` (`ai_behavior.py` lines 147-242), threading the
per-role memory state through the calls in program order.  The prompt strings
(`extra_context`, menstruation sentence, search context) only influence the
AI calls, whose outcomes are already the oracles in `o`, and
`_if_in_menstruation` touches neither the short-term log nor the meta keys
modeled in `MemState` (its `last_period_start` meta key is modeled separately
below), so prompt assembly is not replayed here. -/
def handle_chat (role : RoleData) (userMessage : String) (mem : MemState)
    (o : ChatOracles) (now : Int) : AIResponse × MemState :=
  let mem1 := (get_context_messages mem memoryLength o.ctxWorker o.ctxAI now).2
  let mem2 := (sequential_memory_generation mem1 o.seqWorker o.seqAI userMessage now).2
  if o.gen.success then
    let aiReply := o.gen.content.getD ""
    let mem3 := append_short_term mem2 "user" (o.gen.userContent.getD userMessage) now
    let mem4 := append_short_term mem3 "assistant" aiReply now
    let mem5 := (trigger_memory_summary "1000000000000" role mem4 o.sumWorker o.sumAI now).2.1
    match o.emotion with
    | some e =>
      ({ success := true, action := some "reply",
         content := some (aiReply ++ " [" ++ e ++ "]"), error := none }, mem5)
    | none =>
      ({ success := true, action := some "reply", content := some aiReply, error := none }, mem5)
  else
    ({ success := false, action := some "ignore", content := none, error := o.gen.error }, mem2)

/-- `datetime.hour` for a clock expressed in whole minutes. -/
def hourOfMinutes (t : Nat) : Nat := (t / 60) % 24

/-- The next-run computation of `schedule_proactive_for_role`
(`scheduler_service.py` lines 88-104), at whole-minute resolution.
`interval` is the `random.randint(min_minutes, max_minutes)` draw.  The quiet
check tests the CURRENT hour (`datetime.now().hour`); inside quiet hours the
run is moved to `now.replace(hour=quiet_end, minute=0, second=0)`, plus one
day when that instant is already past. -/
def schedule_proactive_next_run (now interval quietStart quietEnd : Nat) : Nat :=
  let nextRun := now + interval
  let currentHour := hourOfMinutes now
  if quietStart ≤ currentHour ∨ currentHour < quietEnd then
    let boundary := (now / 1440) * 1440 + quietEnd * 60
    if boundary < now then boundary + 1440 else boundary
  else nextRun

/-- The `last_period_start` roll-forward loop of `_if_in_menstruation`
(`memory_service.py` lines 117-121), on day numbers.  `jitter i` is the
`random.randint(-5, 5)` draw of iteration `i`; a date pushed past today is
clamped back to today.  `fuel` bounds the iteration count; any
`fuel ≥ (today - last).toNat` is enough to reach the loop's exit condition
when `cycle ≥ 6` (proved below). -/
def advance_last_period (jitter : Nat → Int) (cycle today : Int) : Nat → Int → Int
  | 0, last => last
  | fuel + 1, last =>
    if last + cycle ≤ today then
      let next := last + cycle + jitter fuel
      advance_last_period jitter cycle today fuel (if next > today then today else next)
    else last

/-- The day computation of `_if_in_menstruation` (`memory_service.py` lines
115-127) after the profile defaults are resolved: advances
`last_period_start`, then returns `(True, day_offset + 1)` inside the period
and `(False, day_offset - period_length + 1)` otherwise. -/
def menstruation_day (cycle periodLen : Int) (jitter : Nat → Int) (fuel : Nat)
    (today last0 : Int) : Bool × Int :=
  let last := advance_last_period jitter cycle today fuel last0
  let dayOffset := today - last
  if dayOffset < periodLen then (true, dayOffset + 1)
  else (false, dayOffset - periodLen + 1)

/-! ## Helper lemmas -/

theorem append_short_term_shortTerm (st : MemState) (r c : String) (t : Int) :
    (append_short_term st r c t).shortTerm = st.shortTerm ++ [⟨r, c, t⟩] := rfl

theorem foldl_append_short_term (items : List (String × String × Int)) (st : MemState) :
    (items.foldl (fun s i => append_short_term s i.1 i.2.1 i.2.2) st).shortTerm
      = st.shortTerm ++ items.map (fun i => ⟨i.1, i.2.1, i.2.2⟩) := by
  induction items generalizing st with
  | nil => simp
  | cons i is ih =>
    rw [List.foldl_cons, ih]
    simp [append_short_term]

/-! ## C2: summarization gate boundary, counter reset -/

/-- C2: `should_summarize` is false at `message_count_since_summary =
limit - 1` and true from `limit` on (limit = 60), and every
`update_core_memory` call resets the counter to 0 and stamps
`last_summarized_at` with the current time. -/
theorem should_summarize_boundary_and_core_reset (st : MemState) (text : String) (now : Int) :
    (st.messageCountSinceSummary = memoryLength - 1 → should_summarize st = false) ∧
    (st.messageCountSinceSummary ≥ memoryLength → should_summarize st = true) ∧
    (update_core_memory st text now).messageCountSinceSummary = 0 ∧
    (update_core_memory st text now).lastSummarizedAt = some now := by
  refine ⟨fun h => ?_, fun h => ?_, rfl, rfl⟩
  · simp [should_summarize, h, memoryLength]
  · simp only [should_summarize, ge_iff_le, decide_eq_true_eq]
    exact h

/-- Witness for C2 at a concrete state with counter 59 resp. 60. -/
theorem should_summarize_boundary_witness :
    should_summarize ⟨"", [], 59, none, none, -1⟩ = false ∧
    should_summarize ⟨"", [], 60, none, none, -1⟩ = true ∧
    (update_core_memory ⟨"", [], 60, none, none, -1⟩ "x" 5).messageCountSinceSummary = 0 ∧
    (update_core_memory ⟨"", [], 60, none, none, -1⟩ "x" 5).lastSummarizedAt = some 5 :=
  ⟨(should_summarize_boundary_and_core_reset ⟨"", [], 59, none, none, -1⟩ "x" 5).1 (by decide),
   (should_summarize_boundary_and_core_reset ⟨"", [], 60, none, none, -1⟩ "x" 5).2.1 (by decide),
   (should_summarize_boundary_and_core_reset ⟨"", [], 60, none, none, -1⟩ "x" 5).2.2.1,
   (should_summarize_boundary_and_core_reset ⟨"", [], 60, none, none, -1⟩ "x" 5).2.2.2⟩

/-! ## C8: bridging-memory gate -/

/-- C8: `should_generate_sequential_memory` is true iff `updated_at` is
absent or `now - updated_at ≥ 1200` seconds, and immediately after any
`append_short_term` it is false. -/
theorem should_generate_sequential_memory_iff (st : MemState) (now t : Int) (r c : String) :
    (should_generate_sequential_memory st now = true ↔
      (st.updatedAt = none ∨ ∃ u, st.updatedAt = some u ∧ now - u ≥ 1200)) ∧
    should_generate_sequential_memory (append_short_term st r c t) t = false := by
  constructor
  · cases h : st.updatedAt with
    | none => simp [should_generate_sequential_memory, h]
    | some u => simp [should_generate_sequential_memory, h]
  · show decide ((t - t : Int) ≥ 1200) = false
    rw [sub_self]
    decide

/-- Witness for C8 at concrete states: `updated_at` absent, stale, fresh,
and just after an append. -/
theorem should_generate_sequential_memory_witness :
    (should_generate_sequential_memory ⟨"", [], 0, none, some 100, -1⟩ 1300 = true ↔
      ((⟨"", [], 0, none, some 100, -1⟩ : MemState).updatedAt = none ∨
        ∃ u, (⟨"", [], 0, none, some 100, -1⟩ : MemState).updatedAt = some u ∧
          1300 - u ≥ 1200)) ∧
    should_generate_sequential_memory
      (append_short_term ⟨"", [], 0, none, some 100, -1⟩ "user" "hi" 1300) 1300 = false :=
  should_generate_sequential_memory_iff ⟨"", [], 0, none, some 100, -1⟩ 1300 1300 "user" "hi"

/-! ## C9: appends are lossy-free and FIFO -/

/-- C9: folding `k` `append_short_term` calls over a state extends
`load_memory(...).short_term` by exactly those `k` entries, in call order,
leaving every previously stored entry in place; in particular the length
grows by exactly `k`. -/
theorem append_short_term_fifo (st : MemState) (items : List (String × String × Int)) :
    (load_memory (items.foldl (fun s i => append_short_term s i.1 i.2.1 i.2.2) st)).shortTerm
      = (load_memory st).shortTerm ++ items.map (fun i => loadEntry ⟨i.1, i.2.1, i.2.2⟩) ∧
    (items.foldl (fun s i => append_short_term s i.1 i.2.1 i.2.2) st).shortTerm.length
      = st.shortTerm.length + items.length := by
  have h := foldl_append_short_term items st
  constructor
  · simp [load_memory, h]
  · simp [h]

/-! ## C7: trigger_memory_summary outcome trichotomy -/

/-- C7: every run of `trigger_memory_summary` ends in exactly one of three
caller-visible outcomes — `"noneed"` with untouched memory when the gate is
closed, the new (stripped) core text with `update_core_memory` applied when
the gate is open and the AI call succeeds with truthy content, or `None` with
untouched memory in every failure case.  The embedding is a total function:
every Python exception path is a `(none, mem)` branch, so nothing escapes to
the caller. -/
theorem trigger_memory_summary_trichotomy (roleId : String) (roleData : RoleData)
    (mem : MemState) (workerLookup : Option RoleData) (ai : Option AIResult) (now : Int) :
    (should_summarize mem = false ∧
      (trigger_memory_summary roleId roleData mem workerLookup ai now).1 = some "noneed" ∧
      (trigger_memory_summary roleId roleData mem workerLookup ai now).2.1 = mem) ∨
    (should_summarize mem = true ∧
      ∃ r, ai = some r ∧ (r.success && contentTruthy r.content) = true ∧
        (trigger_memory_summary roleId roleData mem workerLookup ai now).1
          = some (strStrip (r.content.getD "")) ∧
        (trigger_memory_summary roleId roleData mem workerLookup ai now).2.1
          = update_core_memory mem (strStrip (r.content.getD "")) now) ∨
    ((trigger_memory_summary roleId roleData mem workerLookup ai now).1 = none ∧
      (trigger_memory_summary roleId roleData mem workerLookup ai now).2.1 = mem) := by
  by_cases hgate : should_summarize mem = true
  · cases workerLookup with
    | none =>
      right; right
      simp [trigger_memory_summary, hgate]
    | some caller =>
      cases ai with
      | none =>
        right; right
        simp [trigger_memory_summary, hgate]
      | some r =>
        by_cases hr : (r.success && contentTruthy r.content) = true
        · right; left
          refine ⟨hgate, r, rfl, hr, ?_, ?_⟩ <;>
            simp [trigger_memory_summary, hgate, hr]
        · right; right
          have hr' : (r.success && contentTruthy r.content) = false :=
            Bool.eq_false_iff.mpr hr
          simp [trigger_memory_summary, hgate, hr']
  · left
    have hg : should_summarize mem = false := Bool.eq_false_iff.mpr hgate
    refine ⟨hg, ?_, ?_⟩ <;> simp [trigger_memory_summary, hg]

/-! ## C1: context-window block computation -/

theorem trigger_chat_summary_shortTerm_cases (worker : Option RoleData) (st : MemState)
    (ai : Option AIResult) (now : Int) :
    (trigger_chat_summary worker st ai now).2.shortTerm = st.shortTerm ∨
    ∃ e1 e2, (trigger_chat_summary worker st ai now).2.shortTerm = st.shortTerm ++ [e1, e2] := by
  cases worker with
  | none => left; rfl
  | some w =>
    cases ai with
    | none => left; rfl
    | some r =>
      by_cases hr : (r.success && contentTruthy r.content) = true
      · right
        refine ⟨⟨"user", "system:触发记忆总结", now⟩,
          ⟨"assistant", "记忆总结结果：" ++ strStrip (r.content.getD ""), now⟩, ?_⟩
        simp [trigger_chat_summary, hr, append_short_term]
      · left
        simp [trigger_chat_summary, Bool.eq_false_iff.mpr hr]

/-- C1 (amended): for `total ≥ 1` entries and `limit > 0`,
`get_context_messages` serves the slice starting at
`block_start = ((total - 1) / limit) * limit`; `block_start` is a multiple of
`limit` strictly below `total`; and the served slice has size
`min(limit, N' - block_start)` where `N'` counts the short-term entries as
they stand when the slice is read — `N' = total` normally, but `total + 2`
when the call crossed a block boundary and the triggered chat summary
succeeded in appending its note pair. -/
theorem get_context_messages_block (st : MemState) (limit : Nat) (worker : Option RoleData)
    (ai : Option AIResult) (now : Int) (res : List CtxMsg × MemState) (blockStart : Nat)
    (hl : 0 < limit) (ht : st.shortTerm ≠ [])
    (hbs : blockStart = ((st.shortTerm.length - 1) / limit) * limit)
    (hres : res = get_context_messages st limit worker ai now) :
    res.1 = ((res.2.shortTerm.drop blockStart).take limit).map ctxOfEntry ∧
    res.1.length = min limit (res.2.shortTerm.length - blockStart) ∧
    limit ∣ blockStart ∧ blockStart < st.shortTerm.length ∧
    (res.2.shortTerm = st.shortTerm ∨
      ∃ e1 e2, res.2.shortTerm = st.shortTerm ++ [e1, e2]) := by
  have hl' : ¬ (limit = 0) := Nat.pos_iff_ne_zero.mp hl
  have ht' : ¬ (st.shortTerm.length = 0) := by
    simpa [List.length_eq_zero] using ht
  have hlt : blockStart < st.shortTerm.length := by
    have h1 : (st.shortTerm.length - 1) / limit * limit ≤ st.shortTerm.length - 1 :=
      Nat.div_mul_le_self _ _
    omega
  have hdvd : limit ∣ blockStart := hbs ▸ dvd_mul_left limit _
  by_cases hblk : st.lastContextBlockStart = (((st.shortTerm.length - 1) / limit * limit : Nat) : Int)
  · have hres' : res = (((st.shortTerm.drop blockStart).take limit).map ctxOfEntry, st) := by
      rw [hres]
      simp only [get_context_messages, if_neg hl', if_neg ht', if_pos hblk, hbs]
    refine ⟨by rw [hres'], ?_, hdvd, hlt, Or.inl (by rw [hres'])⟩
    rw [hres']
    simp [List.length_take, List.length_drop]
  · have hres' : res =
        ((((trigger_chat_summary worker
              { st with lastContextBlockStart := (((st.shortTerm.length - 1) / limit * limit : Nat) : Int) }
              ai now).2.shortTerm.drop blockStart).take limit).map ctxOfEntry,
          (trigger_chat_summary worker
              { st with lastContextBlockStart := (((st.shortTerm.length - 1) / limit * limit : Nat) : Int) }
              ai now).2) := by
      rw [hres]
      simp only [get_context_messages, if_neg hl', if_neg ht', if_neg hblk, hbs]
    have hcases := trigger_chat_summary_shortTerm_cases worker
      { st with lastContextBlockStart := (((st.shortTerm.length - 1) / limit * limit : Nat) : Int) }
      ai now
    refine ⟨by rw [hres'], ?_, hdvd, hlt, ?_⟩
    · rw [hres']
      simp [List.length_take, List.length_drop]
    · rcases hcases with h | ⟨e1, e2, h⟩
      · exact Or.inl (by rw [hres']; exact h)
      · exact Or.inr ⟨e1, e2, by rw [hres']; exact h⟩

def c1WitnessState : MemState :=
  ⟨"", [⟨"user", "a", 0⟩, ⟨"assistant", "b", 1⟩], 2, none, some 1, 0⟩

/-- Witness for C1 (amended) at a concrete two-entry state inside an already
current block. -/
theorem get_context_messages_block_witness :
    (get_context_messages c1WitnessState 60 none none 5).1 =
      ((((get_context_messages c1WitnessState 60 none none 5).2.shortTerm.drop 0).take 60).map
        ctxOfEntry) ∧
    (get_context_messages c1WitnessState 60 none none 5).1.length =
      min 60 ((get_context_messages c1WitnessState 60 none none 5).2.shortTerm.length - 0) ∧
    60 ∣ 0 ∧ 0 < c1WitnessState.shortTerm.length ∧
    ((get_context_messages c1WitnessState 60 none none 5).2.shortTerm =
        c1WitnessState.shortTerm ∨
      ∃ e1 e2, (get_context_messages c1WitnessState 60 none none 5).2.shortTerm =
        c1WitnessState.shortTerm ++ [e1, e2]) :=
  get_context_messages_block c1WitnessState 60 none none 5
    (get_context_messages c1WitnessState 60 none none 5) 0
    (by decide) (by decide) (by decide) rfl

def c1CexState : MemState := ⟨"", [⟨"user", "hi", 0⟩], 1, none, some 0, -1⟩

def c1CexWorker : RoleData :=
  ⟨some "1000000000002", "w", "sys", "", some "m", some "u", some "k", some 1⟩

/-- Counterexample to C1 as stated: with one stored entry (`total = 1`,
`block_start = 0`) the call crosses a block boundary; the triggered chat
summary succeeds and appends its two-entry note, so the served slice has
3 entries, not `min(limit, total - block_start) = 1`. -/
theorem get_context_messages_block_cex :
    (get_context_messages c1CexState 60 (some c1CexWorker)
        (some ⟨true, some "S", none⟩) 5).1.length ≠
      min 60 (c1CexState.shortTerm.length -
        ((c1CexState.shortTerm.length - 1) / 60) * 60) := by
  decide

/-! ## C3: chat handler on generation failure -/

theorem trigger_chat_summary_state_of_fail (worker : Option RoleData) (st : MemState)
    (ai : Option AIResult) (now : Int)
    (h : ∀ r, ai = some r → r.success = false) :
    (trigger_chat_summary worker st ai now).2 = st := by
  cases worker with
  | none => rfl
  | some w =>
    cases ai with
    | none => rfl
    | some r =>
      have hs : r.success = false := h r rfl
      simp [trigger_chat_summary, hs]

theorem get_context_messages_shortTerm_of_fail (st : MemState) (limit : Nat)
    (worker : Option RoleData) (ai : Option AIResult) (now : Int)
    (h : ∀ r, ai = some r → r.success = false) :
    (get_context_messages st limit worker ai now).2.shortTerm = st.shortTerm := by
  by_cases hl : limit = 0
  · simp [get_context_messages, hl]
  · by_cases ht : st.shortTerm.length = 0
    · simp [get_context_messages, hl, ht]
    · by_cases hblk : st.lastContextBlockStart =
        (((st.shortTerm.length - 1) / limit * limit : Nat) : Int)
      · simp [get_context_messages, hl, ht, hblk]
      · have hfix := trigger_chat_summary_state_of_fail worker
          { st with lastContextBlockStart := (((st.shortTerm.length - 1) / limit * limit : Nat) : Int) }
          ai now h
        have hpair : (get_context_messages st limit worker ai now).2 =
            (trigger_chat_summary worker
              { st with lastContextBlockStart := (((st.shortTerm.length - 1) / limit * limit : Nat) : Int) }
              ai now).2 := by
          simp only [get_context_messages, if_neg hl, if_neg ht, if_neg hblk]
        rw [hpair, hfix]

theorem sequential_memory_generation_state_of_fail (st : MemState)
    (worker : Option RoleData) (ai : Option AIResult) (c : String) (now : Int)
    (h : ∀ r, ai = some r → r.success = false) :
    (sequential_memory_generation st worker ai c now).2 = st := by
  by_cases hg : should_generate_sequential_memory st now = true
  · cases worker with
    | none => simp [sequential_memory_generation, hg]
    | some w =>
      cases ai with
      | none => simp [sequential_memory_generation, hg]
      | some r =>
        have hs : r.success = false := h r rfl
        simp [sequential_memory_generation, hg, hs]
  · have hg' : should_generate_sequential_memory st now = false := Bool.eq_false_iff.mpr hg
    simp [sequential_memory_generation, hg']

/-- C3 (amended): when the generation call fails with error `e` AND neither
the block-transition chat summary nor the bridging-memory call succeeds (as
with a stub failing every AI Gateway call), `handle_chat` returns
`{success: false, action: "ignore", error: e}` and the short-term log is
untouched. -/
theorem handle_chat_gen_failure (role : RoleData) (userMessage : String) (mem : MemState)
    (o : ChatOracles) (now : Int) (e : String)
    (hgen : o.gen.success = false) (herr : o.gen.error = some e)
    (hctx : ∀ r, o.ctxAI = some r → r.success = false)
    (hseq : ∀ r, o.seqAI = some r → r.success = false) :
    (handle_chat role userMessage mem o now).1 =
      ⟨false, some "ignore", none, some e⟩ ∧
    (handle_chat role userMessage mem o now).2.shortTerm = mem.shortTerm := by
  have h1 := get_context_messages_shortTerm_of_fail mem memoryLength o.ctxWorker o.ctxAI now hctx
  have h2 := sequential_memory_generation_state_of_fail
    (get_context_messages mem memoryLength o.ctxWorker o.ctxAI now).2
    o.seqWorker o.seqAI userMessage now hseq
  constructor
  · simp [handle_chat, hgen, herr]
  · simp [handle_chat, hgen, h2, h1]

def c3Role : RoleData := ⟨some "42", "r", "sys", "p", some "m", some "u", some "k", some 7⟩

def c3FailAll : ChatOracles :=
  ⟨none, some ⟨false, none, some "timeout"⟩, none, some ⟨false, none, some "timeout"⟩,
    ⟨false, none, none, some "timeout"⟩, none, none, none⟩

/-- Witness for C3 (amended): a stub failing every AI call. -/
theorem handle_chat_gen_failure_witness :
    (handle_chat c3Role "hello" ⟨"", [], 0, none, none, -1⟩ c3FailAll 5).1 =
      ⟨false, some "ignore", none, some "timeout"⟩ ∧
    (handle_chat c3Role "hello" ⟨"", [], 0, none, none, -1⟩ c3FailAll 5).2.shortTerm =
      (⟨"", [], 0, none, none, -1⟩ : MemState).shortTerm :=
  handle_chat_gen_failure c3Role "hello" ⟨"", [], 0, none, none, -1⟩ c3FailAll 5 "timeout"
    rfl rfl (fun r hr => by cases hr; rfl) (fun r hr => by cases hr; rfl)

def c3SeqWorker : RoleData :=
  ⟨some "1000000000003", "w3", "sys", "", some "m", some "u", some "k", some 12⟩

def c3CexOracles : ChatOracles :=
  ⟨none, none, some c3SeqWorker, some ⟨true, some "went to the park", none⟩,
    ⟨false, none, none, some "timeout"⟩, none, none, none⟩

/-- Counterexample to C3 as stated: the generation call fails with
`"timeout"` and the handler answers `{success:false, action:"ignore",
error:"timeout"}`, yet the bridging-memory call succeeded earlier in the same
event and appended two short-term entries. -/
theorem handle_chat_gen_failure_cex :
    (handle_chat c3Role "hello" ⟨"", [], 0, none, none, -1⟩ c3CexOracles 5).1 =
      ⟨false, some "ignore", none, some "timeout"⟩ ∧
    (handle_chat c3Role "hello" ⟨"", [], 0, none, none, -1⟩ c3CexOracles 5).2.shortTerm ≠
      (⟨"", [], 0, none, none, -1⟩ : MemState).shortTerm := by
  decide

/-! ## C10: emotion suffix is returned but never persisted -/

theorem trigger_memory_summary_shortTerm (roleId : String) (roleData : RoleData)
    (mem : MemState) (workerLookup : Option RoleData) (ai : Option AIResult) (now : Int) :
    (trigger_memory_summary roleId roleData mem workerLookup ai now).2.1.shortTerm
      = mem.shortTerm := by
  by_cases hg : should_summarize mem = true
  · cases workerLookup with
    | none => simp [trigger_memory_summary, hg]
    | some caller =>
      cases ai with
      | none => simp [trigger_memory_summary, hg]
      | some r =>
        by_cases hr : (r.success && contentTruthy r.content) = true
        · simp [trigger_memory_summary, hg, hr, update_core_memory]
        · simp [trigger_memory_summary, hg, Bool.eq_false_iff.mpr hr]
  · simp [trigger_memory_summary, Bool.eq_false_iff.mpr hg]

/-- C10: when the generation call succeeds with reply `r` and the emotion
sub-call selects emotion `e`, the assistant entry persisted to the
short-term log carries the raw reply `r`, while the returned content is
`r ++ " [" ++ e ++ "]"` — the persisted turn and the returned content differ
exactly by that suffix, and the tag never reaches memory. -/
theorem handle_chat_emotion_suffix (role : RoleData) (userMessage : String) (mem : MemState)
    (o : ChatOracles) (now : Int) (r e : String)
    (hgen : o.gen.success = true) (hc : o.gen.content = some r) (he : o.emotion = some e) :
    (handle_chat role userMessage mem o now).1.content = some (r ++ " [" ++ e ++ "]") ∧
    (handle_chat role userMessage mem o now).2.shortTerm =
      (sequential_memory_generation
          (get_context_messages mem memoryLength o.ctxWorker o.ctxAI now).2
          o.seqWorker o.seqAI userMessage now).2.shortTerm ++
        [⟨"user", o.gen.userContent.getD userMessage, now⟩, ⟨"assistant", r, now⟩] := by
  constructor
  · simp [handle_chat, hgen, hc, he]
  · simp [handle_chat, hgen, hc, he, trigger_memory_summary_shortTerm, append_short_term]

def sampleRole : RoleData := ⟨some "7", "r", "sys", "p", some "m", some "u", some "k", some 7⟩

def c10Oracles : ChatOracles :=
  ⟨none, none, none, none, ⟨true, some "hi!", some "message: hi", none⟩, none, none,
    some "happy"⟩

/-- Witness for C10 at a concrete successful chat with emotion `"happy"`. -/
theorem handle_chat_emotion_suffix_witness :
    (handle_chat sampleRole "hi" ⟨"", [], 0, none, some 5, 0⟩ c10Oracles 5).1.content =
      some ("hi!" ++ " [" ++ "happy" ++ "]") ∧
    (handle_chat sampleRole "hi" ⟨"", [], 0, none, some 5, 0⟩ c10Oracles 5).2.shortTerm =
      (sequential_memory_generation
          (get_context_messages ⟨"", [], 0, none, some 5, 0⟩ memoryLength none none 5).2
          none none "hi" 5).2.shortTerm ++
        [⟨"user", (some "message: hi").getD "hi", 5⟩, ⟨"assistant", "hi!", 5⟩] :=
  handle_chat_emotion_suffix sampleRole "hi" ⟨"", [], 0, none, some 5, 0⟩ c10Oracles 5
    "hi!" "happy" rfl rfl rfl

/-! ## C4: which credentials the core-memory summarization call uses -/

/-- C4 (amended): with the gate open, the summarization prompt embeds the
role's current core memory and the conversation text of the last
`memoryLength` short-term entries, the `call_ai_direct` invocation takes its
system prompt, model, API URL, API key and temperature (default code `1`,
i.e. `0.1`) from the profile loaded for the `role_id` ARGUMENT — at both call
sites the fixed worker `"1000000000000"`, not the chatting role — and on
success `update_core_memory` stores the stripped reply under the chatting
role's own id. -/
theorem trigger_memory_summary_call_spec (roleId : String) (roleData : RoleData)
    (mem : MemState) (caller : RoleData) (ai : Option AIResult) (now : Int)
    (hgate : should_summarize mem = true) :
    (∃ call, (trigger_memory_summary roleId roleData mem (some caller) ai now).2.2 = some call ∧
      call.userText = summaryPrompt (load_memory mem).coreMemory (recentConversation mem) ∧
      (∃ a b, call.userText = a ++ recentConversation mem ++ b) ∧
      ((load_memory mem).coreMemory ≠ "" →
        ∃ a b, call.userText = a ++ (load_memory mem).coreMemory ++ b) ∧
      call.systemText = caller.systemPrompt ∧
      call.model = caller.aiModel ∧ call.apiUrl = caller.aiApiUrl ∧
      call.apiKey = caller.aiApiKey ∧ call.temperature = caller.aiTemperature.getD 1) ∧
    (∀ r, ai = some r → (r.success && contentTruthy r.content) = true →
      (trigger_memory_summary roleId roleData mem (some caller) ai now).1
        = some (strStrip (r.content.getD "")) ∧
      (trigger_memory_summary roleId roleData mem (some caller) ai now).2.1
        = update_core_memory mem (strStrip (r.content.getD "")) now) := by
  have hcall : ∀ res : Option String × MemState × Option AICall,
      res = trigger_memory_summary roleId roleData mem (some caller) ai now →
      res.2.2 = some
        { systemText := caller.systemPrompt
          userText := summaryPrompt (load_memory mem).coreMemory (recentConversation mem)
          model := caller.aiModel
          apiUrl := caller.aiApiUrl
          apiKey := caller.aiApiKey
          temperature := caller.aiTemperature.getD 1 } := by
    intro res hres
    cases ai with
    | none => rw [hres]; simp [trigger_memory_summary, hgate, summaryPrompt]
    | some r =>
      by_cases hr : (r.success && contentTruthy r.content) = true
      · rw [hres]; simp [trigger_memory_summary, hgate, hr, summaryPrompt]
      · rw [hres]; simp [trigger_memory_summary, hgate, Bool.eq_false_iff.mpr hr, summaryPrompt]
  constructor
  · refine ⟨_, hcall _ rfl, rfl, ?_, ?_, rfl, rfl, rfl, rfl, rfl⟩
    · exact ⟨"\n    当前已有的核心记忆：\n    " ++
        (if (load_memory mem).coreMemory = "" then "（暂无）" else (load_memory mem).coreMemory) ++
        "\n    最近对话：\n    ", "\n    ", rfl⟩
    · intro hne
      refine ⟨"\n    当前已有的核心记忆：\n    ",
        "\n    最近对话：\n    " ++ recentConversation mem ++ "\n    ", ?_⟩
      simp only [summaryPrompt, if_neg hne, String.append_assoc]
  · intro r hr hsucc
    subst hr
    constructor
    · simp [trigger_memory_summary, hgate, hsucc]
    · simp [trigger_memory_summary, hgate, hsucc]

def c4Role : RoleData :=
  ⟨some "42", "girl", "role-sys", "p", some "role-model", some "role-url", some "role-key",
    some 9⟩

def c4Worker : RoleData :=
  ⟨some "1000000000000", "worker0", "worker-sys", "", some "worker-model", some "worker-url",
    some "worker-key", some 1⟩

def c4Mem : MemState := ⟨"core text", [], 60, none, some 0, 0⟩

/-- Witness for C4 (amended): gate open, worker profile loaded — the call is
issued and carries the worker profile's credentials. -/
theorem trigger_memory_summary_call_spec_witness :
    ∃ call, (trigger_memory_summary "1000000000000" c4Role c4Mem (some c4Worker)
        (some ⟨true, some "NEW", none⟩) 9).2.2 = some call ∧
      call.model = c4Worker.aiModel ∧ call.systemText = c4Worker.systemPrompt := by
  obtain ⟨call, hsome, -, -, -, hsys, hmodel, -, -, -⟩ :=
    (trigger_memory_summary_call_spec "1000000000000" c4Role c4Mem c4Worker
      (some ⟨true, some "NEW", none⟩) 9 (by decide)).1
  exact ⟨call, hsome, hmodel, hsys⟩

/-- Counterexample to C4 as stated: at the chat call site the first argument
is the fixed worker id `"1000000000000"`, so `role_data = load_role(role_id)`
(line 510) loads the worker profile and the AI call is made with the WORKER's
model — not the role's own `"role-model"`. -/
theorem trigger_memory_summary_call_spec_cex :
    ((trigger_memory_summary "1000000000000" c4Role c4Mem (some c4Worker)
        (some ⟨true, some "NEW", none⟩) 9).2.2.map AICall.model) = some (some "worker-model") ∧
    c4Role.aiModel = some "role-model" ∧
    ((trigger_memory_summary "1000000000000" c4Role c4Mem (some c4Worker)
        (some ⟨true, some "NEW", none⟩) 9).2.2.map AICall.model) ≠ some c4Role.aiModel := by
  refine ⟨rfl, rfl, ?_⟩
  decide

/-! ## C5: proactive-job quiet-hours deferral -/

/-- C5 (amended): the quiet-hours deferral of `schedule_proactive_for_role`
keys on the CURRENT hour, not on the drawn fire time.  When `now` falls in
the (wrap-around) quiet window, the next run is the next `quiet_hours_end`
boundary — today's `quiet_end:00`, rolled one day forward when already past;
otherwise the next run is `now + interval`, even when that instant itself
lies inside the quiet window. -/
theorem schedule_proactive_quiet (now interval quietStart quietEnd : Nat)
    (hqe : quietEnd ≤ 23) :
    ((quietStart ≤ hourOfMinutes now ∨ hourOfMinutes now < quietEnd) →
      schedule_proactive_next_run now interval quietStart quietEnd % 1440 = quietEnd * 60 ∧
      now ≤ schedule_proactive_next_run now interval quietStart quietEnd ∧
      schedule_proactive_next_run now interval quietStart quietEnd < now + 1440) ∧
    (¬ (quietStart ≤ hourOfMinutes now ∨ hourOfMinutes now < quietEnd) →
      schedule_proactive_next_run now interval quietStart quietEnd = now + interval) := by
  constructor
  · intro hq
    simp only [hourOfMinutes] at hq
    simp only [schedule_proactive_next_run, hourOfMinutes, if_pos hq]
    split
    · refine ⟨?_, ?_, ?_⟩ <;> omega
    · refine ⟨?_, ?_, ?_⟩ <;> omega
  · intro hq
    simp only [hourOfMinutes] at hq
    simp only [schedule_proactive_next_run, hourOfMinutes, if_neg hq]

/-- Witness for C5 (amended): at 23:30 (minute 1410 of day 0) with quiet
hours 23→7, the next run is deferred to a 07:00 boundary. -/
theorem schedule_proactive_quiet_witness :
    (23 ≤ hourOfMinutes 1410 ∨ hourOfMinutes 1410 < 7) ∧
    schedule_proactive_next_run 1410 60 23 7 % 1440 = 7 * 60 ∧
    1410 ≤ schedule_proactive_next_run 1410 60 23 7 ∧
    schedule_proactive_next_run 1410 60 23 7 < 1410 + 1440 := by
  have h := (schedule_proactive_quiet 1410 60 23 7 (by decide)).1 (by decide)
  exact ⟨by decide, h.1, h.2.1, h.2.2⟩

/-- Counterexample to C5 as stated: at 14:00 (minute 840) a 720-minute draw
puts the fire time at 02:00 the next day — inside the 23→7 quiet window —
yet the job is scheduled exactly there (hour 2), not deferred to a 07:00
quiet-end boundary, because the code tested the CURRENT hour (14) instead of
the fire time's. -/
theorem schedule_proactive_quiet_cex :
    schedule_proactive_next_run 840 720 23 7 = 840 + 720 ∧
    (23 ≤ hourOfMinutes (840 + 720) ∨ hourOfMinutes (840 + 720) < 7) ∧
    schedule_proactive_next_run 840 720 23 7 % 1440 ≠ 7 * 60 := by
  decide

/-! ## C6: menstruation-day bounds -/

theorem advance_last_period_lt (jitter : Nat → Int) (cycle today : Int)
    (hc : 6 ≤ cycle) (hj : ∀ i, -5 ≤ jitter i ∧ jitter i ≤ 5) :
    ∀ fuel last0, (today - last0).toNat ≤ fuel →
      today - advance_last_period jitter cycle today fuel last0 < cycle := by
  intro fuel
  induction fuel with
  | zero =>
    intro last0 hfuel
    simp only [advance_last_period]
    omega
  | succ n ih =>
    intro last0 hfuel
    by_cases h : last0 + cycle ≤ today
    · have hj5 := hj n
      simp only [advance_last_period, if_pos h]
      apply ih
      by_cases h2 : last0 + cycle + jitter n > today
      · rw [if_pos h2]
        omega
      · rw [if_neg h2]
        omega
    · simp only [advance_last_period, if_neg h]
      omega

/-- C6 (amended): with cycle parameters in the ranges the code itself
produces (`cycle_length ≥ 6`, `period_length ≥ 1`, jitters in `[-5, 5]`, and
enough loop fuel), the computation never returns a day value STRICTLY ABOVE
`period_length` while in period (the returned value is the 1-based day of
the period, so it reaches exactly `period_length` on the last day), and
never returns a value `≥ cycle_length` when not in period. -/
theorem menstruation_day_bounds (cycle periodLen : Int) (jitter : Nat → Int) (fuel : Nat)
    (today last0 : Int) (hc : 6 ≤ cycle) (hp : 1 ≤ periodLen)
    (hj : ∀ i, -5 ≤ jitter i ∧ jitter i ≤ 5)
    (hfuel : (today - last0).toNat ≤ fuel) :
    ((menstruation_day cycle periodLen jitter fuel today last0).1 = true →
      (menstruation_day cycle periodLen jitter fuel today last0).2 ≤ periodLen) ∧
    ((menstruation_day cycle periodLen jitter fuel today last0).1 = false →
      (menstruation_day cycle periodLen jitter fuel today last0).2 < cycle) := by
  have hlt := advance_last_period_lt jitter cycle today hc hj fuel last0 hfuel
  simp only [menstruation_day]
  by_cases hbr : today - advance_last_period jitter cycle today fuel last0 < periodLen
  · rw [if_pos hbr]
    exact ⟨fun _ => by omega, fun hfalse => by simp at hfalse⟩
  · rw [if_neg hbr]
    exact ⟨fun htrue => by simp at htrue, fun _ => by omega⟩

/-- Witness for C6 (amended) at cycle 28, period 5, today 100, start 0:
the loop advances to day 84, yielding the out-of-period day 12 < 28. -/
theorem menstruation_day_bounds_witness :
    (menstruation_day 28 5 (fun _ => 0) 200 100 0).1 = false ∧
    (menstruation_day 28 5 (fun _ => 0) 200 100 0).2 < 28 := by
  have h := menstruation_day_bounds 28 5 (fun _ => 0) 200 100 0 (by decide) (by decide)
    (fun i => ⟨by norm_num, by norm_num⟩) (by decide)
  exact ⟨by decide, h.2 (by decide)⟩

/-- Counterexample to C6 as stated: on the last day of the period
(`day_offset = period_length - 1`) the code returns `day_offset + 1 =
period_length`, which is NOT `< period_length`. -/
theorem menstruation_day_bounds_cex :
    (menstruation_day 28 5 (fun _ => 0) 10 100 96).1 = true ∧
    ¬ ((menstruation_day 28 5 (fun _ => 0) 10 100 96).2 < 5) := by
  decide
